import Mathlib

/-!
Verification development for the credit-worthiness intake wizard
(frontend form orchestration: validation engine, submission pipeline,
extraction merge, and wizard navigation).

The JavaScript sources are embedded shallowly:
  - form values become the inductive type Value (vNull stands for both
    null and undefined, which the code never distinguishes);
  - the flat form record becomes a total function from the field
    enumeration to Value;
  - the async submission and extraction handlers become pure functions
    from a collaborator environment (the API client) and the pre-state
    to the post-state, paired with the list of network calls issued;
  - JavaScript numbers are modelled as rationals, with NaN as a
    separate Value constructor where the code tests for it.
-/

namespace CreditApp

/-- A JavaScript file object, identified by an id and carrying its name. -/
structure JsFile where
  id : Nat
  name : String
deriving DecidableEq, Repr

/-- A form-record value: null/undefined, a string, a finite number,
the numeric NaN, or a file object. -/
inductive Value where
  | vNull : Value
  | vStr : String → Value
  | vNum : ℚ → Value
  | vNaN : Value
  | vFile : JsFile → Value
deriving DecidableEq, Repr

/-- The recognized keys of the form record.  The keys occupation and
state_of_residence appear in the validation tables and label table of
the source but not in the initial record; reading them from a fresh
record yields undefined, modelled as vNull. -/
inductive Field where
  | full_name | age | gender | employment_status
  | occupation | state_of_residence
  | bank_statement
  | total_monthly_inflow | total_monthly_outflow | transaction_frequency
  | salary_payment_detected | end_of_month_balance
  | highest_credit_amount | highest_debit_amount
  | gambling_transactions_count | loan_related_transactions_count
  | previous_loan_taken | previous_loan_amount
  | repayment_status | missed_payment_count
  | airtime_spend_per_month | data_subscription_spend
deriving DecidableEq, Repr

/-- The mutable applicant record: a total map from field to value. -/
def FormRecord : Type := Field → Value

/-- Pointwise single-field update, the immutable object-spread
update used throughout the components. -/
def updateField (r : FormRecord) (f : Field) (v : Value) : FormRecord :=
  fun g => if g = f then v else r g

/-- initialFormData from utils/formData.js: every field starts as the
empty string, except the file handle which starts as null; the two
keys missing from the object read as undefined. -/
def initialFormData : FormRecord := fun f =>
  match f with
  | Field.bank_statement => Value.vNull
  | Field.occupation => Value.vNull
  | Field.state_of_residence => Value.vNull
  | _ => Value.vStr ""

/-- fieldLabels from utils/validation.js. -/
def fieldLabels : Field → String
  | Field.age => "Age"
  | Field.gender => "Gender"
  | Field.employment_status => "Employment Status"
  | Field.full_name => "Full Name"
  | Field.occupation => "Occupation"
  | Field.state_of_residence => "State of Residence"
  | Field.bank_statement => "Bank Statement"
  | Field.total_monthly_inflow => "Total Monthly Inflow"
  | Field.total_monthly_outflow => "Total Monthly Outflow"
  | Field.transaction_frequency => "Transaction Frequency"
  | Field.salary_payment_detected => "Salary Payment Detected"
  | Field.end_of_month_balance => "End of Month Balance"
  | Field.highest_credit_amount => "Highest Credit Amount"
  | Field.highest_debit_amount => "Highest Debit Amount"
  | Field.gambling_transactions_count => "Gambling Transactions"
  | Field.loan_related_transactions_count => "Loan-Related Transactions"
  | Field.previous_loan_taken => "Previous Loan Taken"
  | Field.previous_loan_amount => "Previous Loan Amount"
  | Field.repayment_status => "Repayment Status"
  | Field.missed_payment_count => "Missed Payment Count"
  | Field.airtime_spend_per_month => "Airtime Spend per Month"
  | Field.data_subscription_spend => "Data Subscription Spend"

/-- isEmpty from utils/validation.js: empty exactly for null/undefined,
for a string whose trim is empty, and for numeric NaN.  A finite number
(in particular 0) and a file object are not empty.  A trimmed string is
empty exactly when every character is whitespace, which is how the
string case is phrased here (computably over the character list). -/
def isEmpty : Value → Bool
  | Value.vNull => true
  | Value.vStr s => s.toList.all Char.isWhitespace
  | Value.vNum _ => false
  | Value.vNaN => true
  | Value.vFile _ => false

/-- The per-step entry of the validationRules table: required fields,
conditional-requirement rules (trigger field paired with an association
list from trigger value to the additional required fields), and the
optional fields. -/
structure StepRules where
  required : List Field
  conditionalRequired : List (Field × List (String × List Field))
  optionalFields : List Field
deriving DecidableEq, Repr

/-- validationRules from utils/validation.js, keyed by step index.
A property lookup with a non-string value coerces to a string property
key; since every key of the conditional tables is a plain word such as
Yes, only a string value can match a key, so rule activation compares
the stored value against vStr of the key. -/
def validationRules : Nat → Option StepRules
  | 0 => some
      { required := [Field.age, Field.gender, Field.employment_status]
        conditionalRequired := []
        optionalFields := [Field.full_name, Field.occupation, Field.state_of_residence] }
  | 1 => some
      { required :=
          [Field.total_monthly_inflow, Field.total_monthly_outflow,
           Field.transaction_frequency, Field.salary_payment_detected,
           Field.end_of_month_balance, Field.highest_credit_amount,
           Field.highest_debit_amount]
        conditionalRequired := []
        optionalFields :=
          [Field.bank_statement, Field.gambling_transactions_count,
           Field.loan_related_transactions_count] }
  | 2 => some
      { required := [Field.previous_loan_taken]
        conditionalRequired :=
          [(Field.previous_loan_taken,
            [("Yes",
              [Field.previous_loan_amount, Field.repayment_status,
               Field.missed_payment_count])])]
        optionalFields := [] }
  | 3 => some
      { required := [Field.airtime_spend_per_month, Field.data_subscription_spend]
        conditionalRequired := []
        optionalFields := [] }
  | _ => none

/-- The error accumulation for a list of required fields: one entry,
keyed by field, for every empty required field, in order. -/
def requiredErrors (r : FormRecord) (fields : List Field) : List (Field × String) :=
  (fields.filter (fun f => isEmpty (r f))).map
    (fun f => (f, fieldLabels f ++ " is required"))

/-- The additional required fields contributed by the conditional
rules whose trigger currently matches, accumulated in rule order. -/
def condFields (r : FormRecord) :
    List (Field × List (String × List Field)) → List Field
  | [] => []
  | tc :: rest =>
    (match tc.2.find? (fun c => r tc.1 == Value.vStr c.1) with
     | some c => c.2
     | none => []) ++ condFields r rest

/-- The errors contributed by the conditional rules whose trigger
currently matches, accumulated in rule order. -/
def condErrors (r : FormRecord) :
    List (Field × List (String × List Field)) → List (Field × String)
  | [] => []
  | tc :: rest =>
    (match tc.2.find? (fun c => r tc.1 == Value.vStr c.1) with
     | some c => requiredErrors r c.2
     | none => []) ++ condErrors r rest

/-- The result of validateStep: the isValid flag and the field-keyed
error map (as an ordered association list; the source keys never
repeat within one pass). -/
structure VResult where
  isValid : Bool
  errors : List (Field × String)
deriving DecidableEq, Repr

/-- validateStep from utils/validation.js.  A step index outside the
rules table makes the source throw; that is modelled as none. -/
def validateStep (step : Nat) (r : FormRecord) : Option VResult :=
  (validationRules step).map (fun rules =>
    let errors := requiredErrors r rules.required ++ condErrors r rules.conditionalRequired
    { isValid := errors.isEmpty, errors := errors })

/-- getRequiredFields from utils/validation.js: the static required
set followed by the additional fields of every currently matching
conditional rule. -/
def getRequiredFields (step : Nat) (r : FormRecord) : Option (List Field) :=
  (validationRules step).map (fun rules =>
    rules.required ++ condFields r rules.conditionalRequired)

/-- Decimal value of a digit list (most significant first). -/
def digitsVal (l : List Char) : Nat :=
  l.foldl (fun a c => a * 10 + (c.toNat - 48)) 0

/-- JavaScript parseInt on a string, base 10: skip leading whitespace,
an optional sign, then the longest digit prefix; NaN (none) when no
digit is found.  The hexadecimal 0x form never occurs in this form and
is not modelled. -/
def parseIntString (s : String) : Option Int :=
  let t := s.toList.dropWhile Char.isWhitespace
  let signAndRest : Int × List Char :=
    match t with
    | '-' :: rest => (-1, rest)
    | '+' :: rest => (1, rest)
    | _ => (1, t)
  let ds := signAndRest.2.takeWhile Char.isDigit
  if ds.isEmpty then none else some (signAndRest.1 * (digitsVal ds : Int))

/-- JavaScript parseFloat on a string: skip leading whitespace, an
optional sign, then digits with an optional fractional part; NaN
(none) when no digit is found.  Exponent notation and the word
Infinity never occur in the stored form values and are not modelled. -/
def parseFloatString (s : String) : Option ℚ :=
  let t := s.toList.dropWhile Char.isWhitespace
  let signAndRest : ℚ × List Char :=
    match t with
    | '-' :: rest => (-1, rest)
    | '+' :: rest => (1, rest)
    | _ => (1, t)
  let ipart := signAndRest.2.takeWhile Char.isDigit
  let rest := signAndRest.2.dropWhile Char.isDigit
  let fpart :=
    match rest with
    | '.' :: r => r.takeWhile Char.isDigit
    | _ => []
  if ipart.isEmpty && fpart.isEmpty then none
  else some (signAndRest.1 * ((digitsVal ipart : ℚ) + (digitsVal fpart : ℚ) / 10 ^ fpart.length))

/-- Truncation toward zero, the way parseInt treats an already numeric
argument in the ranges that occur here. -/
def truncRat (q : ℚ) : Int :=
  if q < 0 then ⌈q⌉ else ⌊q⌋

/-- parseInt applied to a form value: a string is parsed; a finite
number is truncated; null (string form null), undefined, NaN and file
objects all stringify to something with no leading digits, hence NaN.
none stands for NaN. -/
def jsParseInt : Value → Option Int
  | Value.vStr s => parseIntString s
  | Value.vNum q => some (truncRat q)
  | Value.vNull => none
  | Value.vNaN => none
  | Value.vFile _ => none

/-- parseFloat applied to a form value; none stands for NaN. -/
def jsParseFloat : Value → Option ℚ
  | Value.vStr s => parseFloatString s
  | Value.vNum q => some q
  | Value.vNull => none
  | Value.vNaN => none
  | Value.vFile _ => none

/-- The idiom parseInt(x) || 0: NaN is falsy and becomes 0, and a
parsed 0 stays 0, so this is exactly getD 0. -/
def jsToInt (v : Value) : Int :=
  (jsParseInt v).getD 0

/-- The idiom parseFloat(x) || 0, as getD 0. -/
def jsToFloat (v : Value) : ℚ :=
  (jsParseFloat v).getD 0

/-- JavaScript truthiness of a form value: the empty string, null,
undefined, NaN and the number 0 are falsy; every other string or
number, and any file object, is truthy. -/
def jsTruthy : Value → Bool
  | Value.vNull => false
  | Value.vStr s => !(s == "")
  | Value.vNum q => !(q == 0)
  | Value.vNaN => false
  | Value.vFile _ => true

/-- The idiom x || d on form values. -/
def jsOrValue (v : Value) (d : Value) : Value :=
  if jsTruthy v then v else d

/-- The idiom s || d on strings (an empty message falls back to the
default). -/
def jsStringOr (s d : String) : String :=
  if s = "" then d else s

/-- The fully typed payload built for the predict call in
handleSubmit (CreditForm.jsx). -/
structure PredictionData where
  age : Int
  gender : Value
  employment_status : Value
  total_monthly_inflow : ℚ
  total_monthly_outflow : ℚ
  transaction_frequency : Int
  salary_payment_detected : Value
  end_of_month_balance : ℚ
  highest_credit_amount : ℚ
  highest_debit_amount : ℚ
  gambling_transactions_count : Int
  loan_related_transactions_count : Int
  previous_loan_taken : Value
  previous_loan_amount : ℚ
  repayment_status : Value
  missed_payment_count : Int
  airtime_spend_per_month : ℚ
  data_subscription_spend : ℚ
deriving DecidableEq, Repr

/-- The predictionData normalization from handleSubmit: numeric fields
through parseInt/parseFloat with || 0, enumerated fields through || with
their per-field default, gender and employment_status passed through. -/
def mkPredictionData (r : FormRecord) : PredictionData :=
  { age := jsToInt (r Field.age)
    gender := r Field.gender
    employment_status := r Field.employment_status
    total_monthly_inflow := jsToFloat (r Field.total_monthly_inflow)
    total_monthly_outflow := jsToFloat (r Field.total_monthly_outflow)
    transaction_frequency := jsToInt (r Field.transaction_frequency)
    salary_payment_detected := jsOrValue (r Field.salary_payment_detected) (Value.vStr "No")
    end_of_month_balance := jsToFloat (r Field.end_of_month_balance)
    highest_credit_amount := jsToFloat (r Field.highest_credit_amount)
    highest_debit_amount := jsToFloat (r Field.highest_debit_amount)
    gambling_transactions_count := jsToInt (r Field.gambling_transactions_count)
    loan_related_transactions_count := jsToInt (r Field.loan_related_transactions_count)
    previous_loan_taken := jsOrValue (r Field.previous_loan_taken) (Value.vStr "No")
    previous_loan_amount := jsToFloat (r Field.previous_loan_amount)
    repayment_status := jsOrValue (r Field.repayment_status) (Value.vStr "N/A")
    missed_payment_count := jsToInt (r Field.missed_payment_count)
    airtime_spend_per_month := jsToFloat (r Field.airtime_spend_per_month)
    data_subscription_spend := jsToFloat (r Field.data_subscription_spend) }

/-- The response of the predict collaborator (services/api.js). -/
structure PredictResponse where
  loan_defaulted : Int
  credit_score : ℚ
  risk_category : String
  default_probability : ℚ
deriving DecidableEq, Repr

/-- The predictionResults mapping stored in the results state by
handleSubmit. -/
structure ResultsData where
  loan_defaulted : Int
  credit_score_generated : ℚ
  risk_category : String
  default_probability : ℚ
deriving DecidableEq, Repr

/-- Map a predict response to the stored results shape, exactly as
handleSubmit does. -/
def mkResults (resp : PredictResponse) : ResultsData :=
  { loan_defaulted := resp.loan_defaulted
    credit_score_generated := resp.credit_score
    risk_category := resp.risk_category
    default_probability := resp.default_probability }

/-- The payload built for the feedback call in handleSubmit. -/
structure FeedbackData where
  name : Value
  age : Int
  employment_status : Value
  total_monthly_inflow : ℚ
  total_monthly_outflow : ℚ
  end_of_month_balance : ℚ
  salary_payment_detected : Value
  transaction_frequency : Int
  gambling_transactions_count : Int
  previous_loan_taken : Value
  repayment_status : Value
  missed_payment_count : Int
  credit_score : ℚ
  risk_category : String
  default_probability : ℚ
deriving DecidableEq, Repr

/-- The feedbackData construction from handleSubmit, combining form
fields with the prediction response. -/
def mkFeedbackData (r : FormRecord) (resp : PredictResponse) : FeedbackData :=
  { name := jsOrValue (r Field.full_name) (Value.vStr "")
    age := jsToInt (r Field.age)
    employment_status := r Field.employment_status
    total_monthly_inflow := jsToFloat (r Field.total_monthly_inflow)
    total_monthly_outflow := jsToFloat (r Field.total_monthly_outflow)
    end_of_month_balance := jsToFloat (r Field.end_of_month_balance)
    salary_payment_detected := jsOrValue (r Field.salary_payment_detected) (Value.vStr "No")
    transaction_frequency := jsToInt (r Field.transaction_frequency)
    gambling_transactions_count := jsToInt (r Field.gambling_transactions_count)
    previous_loan_taken := jsOrValue (r Field.previous_loan_taken) (Value.vStr "No")
    repayment_status := jsOrValue (r Field.repayment_status) (Value.vStr "N/A")
    missed_payment_count := jsToInt (r Field.missed_payment_count)
    credit_score := resp.credit_score
    risk_category := resp.risk_category
    default_probability := resp.default_probability }

/-- Outcome of one collaborator call: a value, or a thrown error
carrying its message. -/
inductive CallResult (α : Type) where
  | ok : α → CallResult α
  | err : String → CallResult α
deriving DecidableEq, Repr

/-- The collaborator environment seen by handleSubmit: the behavior of
the predict and feedback endpoints during this submission. -/
structure ApiEnv where
  predict : PredictionData → CallResult PredictResponse
  feedback : FeedbackData → CallResult String

/-- A network call issued by the submission pipeline, for the call
trace. -/
inductive Call where
  | predictCall
  | feedbackCall
deriving DecidableEq, Repr

/-- The CreditForm component state: step index, results visibility,
form record, stored results, feedback text, in-flight flag, submit
error, and the per-step error map. -/
structure FormState where
  currentStep : Nat
  showResults : Bool
  formData : FormRecord
  results : Option ResultsData
  feedback : Option String
  isSubmitting : Bool
  submitError : Option String
  stepErrors : List (Field × String)

/-- The step registry from utils/formData.js (label and icon; the view
component of each entry is presentation and carries no logic). -/
structure StepDefEntry where
  label : String
  icon : String
deriving DecidableEq, Repr

/-- formSteps from utils/formData.js. -/
def formSteps : List StepDefEntry :=
  [{ label := "Demographics", icon := "👤" },
   { label := "Financial Data", icon := "📊" },
   { label := "Loan History", icon := "📜" },
   { label := "Behaviour", icon := "📱" }]

/-- handleNext from CreditForm.jsx: validate the current step; on
failure store the error map and stay; on success clear errors and
advance, unless already on the last step.  none models the exception a
step index outside the rules table would raise. -/
def handleNext (st : FormState) : Option FormState :=
  (validateStep st.currentStep st.formData).map (fun vres =>
    if vres.isValid then
      let cleared := { st with stepErrors := [] }
      if st.currentStep < formSteps.length - 1 then
        { cleared with currentStep := st.currentStep + 1 }
      else cleared
    else { st with stepErrors := vres.errors })

/-- handlePrevious from CreditForm.jsx: clear the error map and step
back, never below zero; no validation is involved. -/
def handlePrevious (st : FormState) : FormState :=
  { st with
      stepErrors := []
      currentStep := if st.currentStep > 0 then st.currentStep - 1 else st.currentStep }

/-- handleSubmit from CreditForm.jsx as a pure function of the
collaborator environment and the pre-state, returning the post-state
and the trace of network calls in order.  none models the exception a
step index outside the rules table would raise; every other path is a
value, including both collaborator failures. -/
def handleSubmit (env : ApiEnv) (st : FormState) : Option (FormState × List Call) :=
  (validateStep st.currentStep st.formData).map (fun vres =>
    if vres.isValid then
      let st1 := { st with isSubmitting := true, submitError := none, stepErrors := [] }
      match env.predict (mkPredictionData st.formData) with
      | CallResult.err m =>
          ({ st1 with
              submitError := some (jsStringOr m "Failed to get prediction. Please try again.")
              isSubmitting := false },
           [Call.predictCall])
      | CallResult.ok resp =>
          let st2 := { st1 with results := some (mkResults resp) }
          let st3 :=
            match env.feedback (mkFeedbackData st.formData resp) with
            | CallResult.ok fb => { st2 with feedback := some fb }
            | CallResult.err _ => { st2 with feedback := none }
          ({ st3 with showResults := true, isSubmitting := false },
           [Call.predictCall, Call.feedbackCall])
    else ({ st with stepErrors := vres.errors }, []))

/-- handleNewAssessment from CreditForm.jsx: hide results, return to
step 0, restore the initial record, clear results, feedback and the
error map. -/
def handleNewAssessment (st : FormState) : FormState :=
  { st with
      showResults := false
      currentStep := 0
      formData := initialFormData
      results := none
      feedback := none
      stepErrors := [] }

/-- One user click on the submit button of CreditForm.jsx.  The button
is rendered only on the last step and carries disabled when
isSubmitting is set; a disabled button never fires its click handler,
so such a click leaves the state untouched and issues no call. -/
def submitButtonClick (env : ApiEnv) (st : FormState) : Option (FormState × List Call) :=
  if st.currentStep = formSteps.length - 1 && !st.isSubmitting then
    handleSubmit env st
  else some (st, [])

/-- The payload of a successful extraction (services/api.js extract):
the nine financial fields, carried as form values. -/
structure Extracted where
  total_monthly_inflow : Value
  total_monthly_outflow : Value
  transaction_frequency : Value
  salary_payment_detected : Value
  end_of_month_balance : Value
  highest_credit_amount : Value
  highest_debit_amount : Value
  gambling_transactions_count : Value
  loan_related_transactions_count : Value
deriving DecidableEq, Repr

/-- The local state of the FileUpload component. -/
structure UploadState where
  fileName : String
  isExtracting : Bool
  extractionError : Option String
  extractionSuccess : Bool
deriving DecidableEq, Repr

/-- handleFileChange from FileUpload.jsx as a pure function of the
extract collaborator, the selected file (none when the picker yields
no file), the shared form record and the local upload state.  The file
handle is stored before the extraction starts; a successful extraction
overlays the nine financial fields; a failed extraction records the
message as data and changes no financial field. -/
def handleFileChange (extract : JsFile → CallResult Extracted)
    (file : Option JsFile) (fd : FormRecord) (us : UploadState) :
    FormRecord × UploadState :=
  match file with
  | none => (fd, us)
  | some f =>
    let us1 := { us with
                  fileName := f.name
                  isExtracting := true
                  extractionError := none
                  extractionSuccess := false }
    let fd1 := updateField fd Field.bank_statement (Value.vFile f)
    match extract f with
    | CallResult.ok ex =>
        let fd2 := updateField fd1 Field.total_monthly_inflow ex.total_monthly_inflow
        let fd3 := updateField fd2 Field.total_monthly_outflow ex.total_monthly_outflow
        let fd4 := updateField fd3 Field.transaction_frequency ex.transaction_frequency
        let fd5 := updateField fd4 Field.salary_payment_detected ex.salary_payment_detected
        let fd6 := updateField fd5 Field.end_of_month_balance ex.end_of_month_balance
        let fd7 := updateField fd6 Field.highest_credit_amount ex.highest_credit_amount
        let fd8 := updateField fd7 Field.highest_debit_amount ex.highest_debit_amount
        let fd9 := updateField fd8 Field.gambling_transactions_count ex.gambling_transactions_count
        let fd10 := updateField fd9 Field.loan_related_transactions_count ex.loan_related_transactions_count
        (fd10, { us1 with isExtracting := false, extractionSuccess := true })
    | CallResult.err m =>
        (fd1,
         { us1 with
            isExtracting := false
            extractionError := some (jsStringOr m "Failed to extract data. Please fill manually.") })

/-- handleChange from LoanHistory: when previous_loan_taken is set to
No, the three dependent fields are reset alongside it; every other
change touches only the named field. -/
def lhHandleChange (field : Field) (value : Value) (fd : FormRecord) : FormRecord :=
  if field = Field.previous_loan_taken ∧ value = Value.vStr "No" then
    updateField (updateField (updateField (updateField fd field value)
      Field.previous_loan_amount (Value.vStr ""))
      Field.repayment_status (Value.vStr "N/A"))
      Field.missed_payment_count (Value.vStr "0")
  else updateField fd field value

/-- A record whose loan-history trigger is on while the dependent
fields are still blank; used to instantiate the validation theorems. -/
def yesRecord : FormRecord :=
  updateField initialFormData Field.previous_loan_taken (Value.vStr "Yes")

/-- The error map validateStep computes on step 2 for yesRecord. -/
def yesErrors : List (Field × String) :=
  [(Field.previous_loan_amount, "Previous Loan Amount is required"),
   (Field.repayment_status, "Repayment Status is required"),
   (Field.missed_payment_count, "Missed Payment Count is required")]

/-- The required-field set getRequiredFields computes on step 2 for
yesRecord. -/
def yesReq : List Field :=
  [Field.previous_loan_taken, Field.previous_loan_amount,
   Field.repayment_status, Field.missed_payment_count]

/-- A record whose loan-history trigger is off while the dependent
fields are blank. -/
def noRecord : FormRecord :=
  updateField initialFormData Field.previous_loan_taken (Value.vStr "No")

/-- A fully filled record that passes validation on every step. -/
def sampleRecord : FormRecord := fun f =>
  match f with
  | Field.bank_statement => Value.vNull
  | Field.occupation => Value.vNull
  | Field.state_of_residence => Value.vNull
  | Field.full_name => Value.vStr "Ada"
  | Field.gender => Value.vStr "Female"
  | Field.employment_status => Value.vStr "Employed"
  | Field.salary_payment_detected => Value.vStr "Yes"
  | Field.previous_loan_taken => Value.vStr "No"
  | Field.repayment_status => Value.vStr "N/A"
  | Field.age => Value.vStr "30"
  | Field.missed_payment_count => Value.vStr "0"
  | _ => Value.vStr "100"

/-- The component state on the final step with sampleRecord loaded and
nothing in flight. -/
def sampleState : FormState :=
  { currentStep := 3
    showResults := false
    formData := sampleRecord
    results := none
    feedback := none
    isSubmitting := false
    submitError := none
    stepErrors := [] }

/-- A concrete successful prediction. -/
def sampleResponse : PredictResponse :=
  { loan_defaulted := 0
    credit_score := 72
    risk_category := "Low"
    default_probability := 12 / 100 }

/-- An environment where predict succeeds and feedback throws. -/
def envFeedbackFails : ApiEnv :=
  { predict := fun _ => CallResult.ok sampleResponse
    feedback := fun _ => CallResult.err "feedback service down" }

/-- An environment where predict itself throws. -/
def envPredictFails : ApiEnv :=
  { predict := fun _ => CallResult.err "model offline"
    feedback := fun _ => CallResult.ok "some advice" }

/-- A concrete uploaded file. -/
def sampleFile : JsFile :=
  { id := 7, name := "statement.pdf" }

/-- An extraction collaborator that always fails. -/
def extractAlwaysFails : JsFile → CallResult Extracted :=
  fun _ => CallResult.err "unreadable statement"

/-- A blank upload-component state. -/
def initialUploadState : UploadState :=
  { fileName := "", isExtracting := false, extractionError := none, extractionSuccess := false }

theorem requiredErrors_eq_nil_iff (r : FormRecord) (fs : List Field) :
    requiredErrors r fs = [] ↔ ∀ f ∈ fs, isEmpty (r f) = false := by
  simp [requiredErrors, List.map_eq_nil_iff, List.filter_eq_nil_iff]

theorem mem_requiredErrors {r : FormRecord} {fs : List Field} {f : Field} {m : String}
    (h : (f, m) ∈ requiredErrors r fs) : f ∈ fs ∧ isEmpty (r f) = true := by
  unfold requiredErrors at h
  rcases List.mem_map.mp h with ⟨a, ha, heq⟩
  rcases List.mem_filter.mp ha with ⟨hmem, hemp⟩
  injection heq with h1 h2
  subst h1
  exact ⟨hmem, hemp⟩

theorem condErrors_eq_nil_iff (r : FormRecord)
    (cr : List (Field × List (String × List Field))) :
    condErrors r cr = [] ↔ ∀ f ∈ condFields r cr, isEmpty (r f) = false := by
  induction cr with
  | nil => simp [condErrors, condFields]
  | cons hd tl ih =>
    cases hfind : hd.2.find? (fun c => r hd.1 == Value.vStr c.1) with
    | none =>
      simp [condErrors, condFields, hfind, ih]
    | some c =>
      simp only [condErrors, condFields, hfind, List.append_eq_nil,
        List.mem_append, requiredErrors_eq_nil_iff, ih]
      constructor
      · rintro ⟨h1, h2⟩ f hf
        rcases hf with hf | hf
        · exact h1 f hf
        · exact h2 f hf
      · intro h
        exact ⟨fun f hf => h f (Or.inl hf), fun f hf => h f (Or.inr hf)⟩

theorem mem_condErrors {r : FormRecord}
    {cr : List (Field × List (String × List Field))} {f : Field} {m : String}
    (h : (f, m) ∈ condErrors r cr) : isEmpty (r f) = true := by
  induction cr with
  | nil => simp [condErrors] at h
  | cons hd tl ih =>
    simp only [condErrors, List.mem_append] at h
    rcases h with h | h
    · cases hfind : hd.2.find? (fun c => r hd.1 == Value.vStr c.1) with
      | none => rw [hfind] at h; simp at h
      | some c =>
        rw [hfind] at h
        exact (mem_requiredErrors h).2
    · exact ih h

/-- C1.  For every step with a rule entry and every record, the
isValid flag of validateStep is true exactly when every field of the
getRequiredFields set (the static required fields together with the
additional fields of every conditional rule whose trigger currently
matches) is non-empty under isEmpty, which holds the number 0
non-empty; and a field holding the number 0 never appears in the error
map. -/
theorem validateStep_isValid_iff_all_required_nonempty
    (step : Nat) (r : FormRecord) (res : VResult) (req : List Field)
    (hres : validateStep step r = some res)
    (hreq : getRequiredFields step r = some req) :
    (res.isValid = true ↔ ∀ f ∈ req, isEmpty (r f) = false) ∧
    (∀ f m, r f = Value.vNum 0 → (f, m) ∉ res.errors) := by
  unfold validateStep at hres
  unfold getRequiredFields at hreq
  cases hrule : validationRules step with
  | none => rw [hrule] at hres; simp at hres
  | some rules =>
    rw [hrule] at hres hreq
    simp only [Option.map_some'] at hres hreq
    obtain rfl : _ = res := Option.some.inj hres
    obtain rfl : _ = req := Option.some.inj hreq
    constructor
    · simp only [List.isEmpty_iff, List.append_eq_nil,
        requiredErrors_eq_nil_iff, condErrors_eq_nil_iff]
      constructor
      · rintro ⟨h1, h2⟩ f hf
        rcases List.mem_append.mp hf with hf | hf
        · exact h1 f hf
        · exact h2 f hf
      · intro h
        exact ⟨fun f hf => h f (List.mem_append.mpr (Or.inl hf)),
               fun f hf => h f (List.mem_append.mpr (Or.inr hf))⟩
    · intro f m hf hmem
      rcases List.mem_append.mp hmem with hmem | hmem
      · have := (mem_requiredErrors hmem).2
        rw [hf] at this
        simp [isEmpty] at this
      · have := mem_condErrors hmem
        rw [hf] at this
        simp [isEmpty] at this

/-- Witness for C1 at step 2 on yesRecord: validateStep reports
invalid, and indeed the blank conditional fields make the
required-nonempty condition fail, while no field holding the number 0
is reported. -/
theorem validateStep_isValid_iff_all_required_nonempty_witness :
    ((VResult.mk false yesErrors).isValid = true ↔
      ∀ f ∈ yesReq, isEmpty (yesRecord f) = false) ∧
    (∀ f m, yesRecord f = Value.vNum 0 → (f, m) ∉ (VResult.mk false yesErrors).errors) :=
  validateStep_isValid_iff_all_required_nonempty 2 yesRecord
    (VResult.mk false yesErrors) yesReq (by decide) (by decide)

/-- C2.  Whenever previous_loan_taken is not the string Yes, the
step-2 validation reports no error for previous_loan_amount,
repayment_status or missed_payment_count, whatever those fields hold. -/
theorem inactive_trigger_fields_not_required
    (r : FormRecord) (res : VResult)
    (h : r Field.previous_loan_taken ≠ Value.vStr "Yes")
    (hres : validateStep 2 r = some res) :
    (∀ m, (Field.previous_loan_amount, m) ∉ res.errors) ∧
    (∀ m, (Field.repayment_status, m) ∉ res.errors) ∧
    (∀ m, (Field.missed_payment_count, m) ∉ res.errors) := by
  have hb : (r Field.previous_loan_taken == Value.vStr "Yes") = false := by
    cases hb : r Field.previous_loan_taken == Value.vStr "Yes" with
    | false => rfl
    | true => exact absurd (eq_of_beq hb) h
  simp only [validateStep, validationRules, Option.map_some'] at hres
  obtain rfl : _ = res := Option.some.inj hres
  refine ⟨?_, ?_, ?_⟩ <;>
  · intro m hmem
    rcases List.mem_append.mp hmem with hmem | hmem
    · have := (mem_requiredErrors hmem).1
      simp at this
    · simp only [condErrors, List.find?, hb, List.append_nil] at hmem
      simp [condErrors] at hmem

/-- Witness for C2 on noRecord, where validateStep on step 2 yields a
valid result with an empty error map. -/
theorem inactive_trigger_fields_not_required_witness :
    (∀ m, (Field.previous_loan_amount, m) ∉ (VResult.mk true []).errors) ∧
    (∀ m, (Field.repayment_status, m) ∉ (VResult.mk true []).errors) ∧
    (∀ m, (Field.missed_payment_count, m) ∉ (VResult.mk true []).errors) :=
  inactive_trigger_fields_not_required noRecord (VResult.mk true [])
    (by decide) (by decide)

/-- C3.  The submission-time normalization is a total function of the
record (mkPredictionData is total by construction); every
numeric-typed field whose stored value fails to parse is sent as 0;
the enumerated fields default per field, salary_payment_detected and
previous_loan_taken to No and repayment_status to N/A, when their
stored value is falsy; and a blank gambling_transactions_count in
particular is sent as the integer 0. -/
theorem normalization_totals_and_defaults (r : FormRecord) :
    (jsParseInt (r Field.age) = none → (mkPredictionData r).age = 0) ∧
    (jsParseFloat (r Field.total_monthly_inflow) = none →
      (mkPredictionData r).total_monthly_inflow = 0) ∧
    (jsParseFloat (r Field.total_monthly_outflow) = none →
      (mkPredictionData r).total_monthly_outflow = 0) ∧
    (jsParseInt (r Field.transaction_frequency) = none →
      (mkPredictionData r).transaction_frequency = 0) ∧
    (jsParseFloat (r Field.end_of_month_balance) = none →
      (mkPredictionData r).end_of_month_balance = 0) ∧
    (jsParseFloat (r Field.highest_credit_amount) = none →
      (mkPredictionData r).highest_credit_amount = 0) ∧
    (jsParseFloat (r Field.highest_debit_amount) = none →
      (mkPredictionData r).highest_debit_amount = 0) ∧
    (jsParseInt (r Field.gambling_transactions_count) = none →
      (mkPredictionData r).gambling_transactions_count = 0) ∧
    (jsParseInt (r Field.loan_related_transactions_count) = none →
      (mkPredictionData r).loan_related_transactions_count = 0) ∧
    (jsParseFloat (r Field.previous_loan_amount) = none →
      (mkPredictionData r).previous_loan_amount = 0) ∧
    (jsParseInt (r Field.missed_payment_count) = none →
      (mkPredictionData r).missed_payment_count = 0) ∧
    (jsParseFloat (r Field.airtime_spend_per_month) = none →
      (mkPredictionData r).airtime_spend_per_month = 0) ∧
    (jsParseFloat (r Field.data_subscription_spend) = none →
      (mkPredictionData r).data_subscription_spend = 0) ∧
    (jsTruthy (r Field.salary_payment_detected) = false →
      (mkPredictionData r).salary_payment_detected = Value.vStr "No") ∧
    (jsTruthy (r Field.previous_loan_taken) = false →
      (mkPredictionData r).previous_loan_taken = Value.vStr "No") ∧
    (jsTruthy (r Field.repayment_status) = false →
      (mkPredictionData r).repayment_status = Value.vStr "N/A") ∧
    (r Field.gambling_transactions_count = Value.vStr "" →
      (mkPredictionData r).gambling_transactions_count = 0) := by
  refine ⟨?_, ?_, ?_, ?_, ?_, ?_, ?_, ?_, ?_, ?_, ?_, ?_, ?_, ?_, ?_, ?_, ?_⟩ <;>
    (intro h; simp [mkPredictionData, jsToInt, jsToFloat, jsOrValue, h]; try decide)

/-- Witness for C3 on the all-default initial record: every numeric
field of the payload is 0 and every enumerated field takes its
per-field default. -/
theorem normalization_totals_and_defaults_witness :
    (mkPredictionData initialFormData).age = 0 ∧
    (mkPredictionData initialFormData).total_monthly_inflow = 0 ∧
    (mkPredictionData initialFormData).total_monthly_outflow = 0 ∧
    (mkPredictionData initialFormData).transaction_frequency = 0 ∧
    (mkPredictionData initialFormData).end_of_month_balance = 0 ∧
    (mkPredictionData initialFormData).highest_credit_amount = 0 ∧
    (mkPredictionData initialFormData).highest_debit_amount = 0 ∧
    (mkPredictionData initialFormData).gambling_transactions_count = 0 ∧
    (mkPredictionData initialFormData).loan_related_transactions_count = 0 ∧
    (mkPredictionData initialFormData).previous_loan_amount = 0 ∧
    (mkPredictionData initialFormData).missed_payment_count = 0 ∧
    (mkPredictionData initialFormData).airtime_spend_per_month = 0 ∧
    (mkPredictionData initialFormData).data_subscription_spend = 0 ∧
    (mkPredictionData initialFormData).salary_payment_detected = Value.vStr "No" ∧
    (mkPredictionData initialFormData).previous_loan_taken = Value.vStr "No" ∧
    (mkPredictionData initialFormData).repayment_status = Value.vStr "N/A" := by
  obtain ⟨h1, h2, h3, h4, h5, h6, h7, h8, h9, h10, h11, h12, h13, h14, h15, h16, _⟩ :=
    normalization_totals_and_defaults initialFormData
  exact ⟨h1 (by decide), h2 (by decide), h3 (by decide), h4 (by decide), h5 (by decide),
    h6 (by decide), h7 (by decide), h8 (by decide), h9 (by decide), h10 (by decide),
    h11 (by decide), h12 (by decide), h13 (by decide), h14 (by decide), h15 (by decide),
    h16 (by decide)⟩

/-- C4.  When the final-step validation passes, predict succeeds and
the feedback call throws, handleSubmit still stores all four scoring
fields exactly as predict returned them, leaves feedback absent,
raises showResults (results-ready) and leaves no submit error. -/
theorem feedback_failure_nonfatal
    (env : ApiEnv) (st : FormState) (vres : VResult) (resp : PredictResponse) (m : String)
    (hv : validateStep st.currentStep st.formData = some vres)
    (hvalid : vres.isValid = true)
    (hp : env.predict (mkPredictionData st.formData) = CallResult.ok resp)
    (hf : env.feedback (mkFeedbackData st.formData resp) = CallResult.err m) :
    handleSubmit env st = some
      ({ st with
          isSubmitting := false
          submitError := none
          stepErrors := []
          results := some (mkResults resp)
          feedback := none
          showResults := true }, [Call.predictCall, Call.feedbackCall]) := by
  simp [handleSubmit, hv, hvalid, hp, hf]

/-- Witness for C4: an environment whose predict yields credit score
72, risk Low, probability 0.12, defaulted 0, and whose feedback call
throws; the submission still reaches the results-ready state with all
four scoring fields and no feedback text. -/
theorem feedback_failure_nonfatal_witness :
    handleSubmit envFeedbackFails sampleState = some
      ({ sampleState with
          isSubmitting := false
          submitError := none
          stepErrors := []
          results := some (mkResults sampleResponse)
          feedback := none
          showResults := true }, [Call.predictCall, Call.feedbackCall]) :=
  feedback_failure_nonfatal envFeedbackFails sampleState (VResult.mk true [])
    sampleResponse "feedback service down" (by decide) rfl rfl rfl

/-- C5.  The feedback collaborator is reached only after a successful
predict: whenever the call trace contains the feedback call, predict
returned ok; and when validation passes but predict throws, the trace
stops at the predict call, the error message is stored as the submit
error (with the default text when the thrown message is empty) and no
other state changes besides clearing the step errors and the in-flight
flag. -/
theorem predict_failure_short_circuits (env : ApiEnv) (st : FormState) :
    (∀ calls, (handleSubmit env st).map Prod.snd = some calls →
      Call.feedbackCall ∈ calls →
      ∃ resp, env.predict (mkPredictionData st.formData) = CallResult.ok resp) ∧
    (∀ vres m, validateStep st.currentStep st.formData = some vres →
      vres.isValid = true →
      env.predict (mkPredictionData st.formData) = CallResult.err m →
      handleSubmit env st = some
        ({ st with
            isSubmitting := false
            submitError := some (jsStringOr m "Failed to get prediction. Please try again.")
            stepErrors := [] }, [Call.predictCall])) := by
  constructor
  · intro calls hcalls hmem
    cases hv : validateStep st.currentStep st.formData with
    | none => simp [handleSubmit, hv] at hcalls
    | some vres =>
      cases hp : env.predict (mkPredictionData st.formData) with
      | ok resp => exact ⟨resp, rfl⟩
      | err m =>
        by_cases hiv : vres.isValid = true
        · simp [handleSubmit, hv, hiv, hp] at hcalls
          subst hcalls
          simp at hmem
        · simp [handleSubmit, hv, hiv] at hcalls
          subst hcalls
          simp at hmem
  · intro vres m hv hvalid hp
    simp [handleSubmit, hv, hvalid, hp]

/-- Witness for C5: with predict succeeding the trace does contain the
feedback call and predict indeed returned ok; with predict throwing,
handleSubmit stops after the predict call and stores the error. -/
theorem predict_failure_short_circuits_witness :
    (∃ resp, envFeedbackFails.predict (mkPredictionData sampleState.formData) =
      CallResult.ok resp) ∧
    handleSubmit envPredictFails sampleState = some
      ({ sampleState with
          isSubmitting := false
          submitError := some (jsStringOr "model offline" "Failed to get prediction. Please try again.")
          stepErrors := [] }, [Call.predictCall]) :=
  ⟨(predict_failure_short_circuits envFeedbackFails sampleState).1
      [Call.predictCall, Call.feedbackCall] (by decide) (by decide),
   (predict_failure_short_circuits envPredictFails sampleState).2
      (VResult.mk true []) "model offline" (by decide) rfl rfl⟩

/-- C6.  A submit click while a submission is in flight is a no-op:
the submit button carries disabled while isSubmitting is set, so the
click changes no state and issues no call. -/
theorem submit_click_noop_while_submitting (env : ApiEnv) (st : FormState)
    (h : st.isSubmitting = true) :
    submitButtonClick env st = some (st, []) := by
  simp [submitButtonClick, h]

/-- A state with a submission in flight, for the C6 witness. -/
def submittingState : FormState :=
  { sampleState with isSubmitting := true }

/-- Witness for C6: clicking submit while submittingState is in flight
returns the state unchanged with an empty call trace, even though the
environment would answer. -/
theorem submit_click_noop_while_submitting_witness :
    submitButtonClick envFeedbackFails submittingState = some (submittingState, []) :=
  submit_click_noop_while_submitting envFeedbackFails submittingState rfl

/-- C7.  A failed extraction leaves every one of the nine financial
fields exactly as it was, surfaces the failure message as data in the
local extractionError, and ends with the in-flight flag down; the
handler returns normally rather than aborting. -/
theorem failed_extraction_preserves_financial_fields
    (extract : JsFile → CallResult Extracted) (f : JsFile)
    (fd : FormRecord) (us : UploadState) (m : String)
    (hx : extract f = CallResult.err m) :
    ((handleFileChange extract (some f) fd us).1 Field.total_monthly_inflow =
      fd Field.total_monthly_inflow) ∧
    ((handleFileChange extract (some f) fd us).1 Field.total_monthly_outflow =
      fd Field.total_monthly_outflow) ∧
    ((handleFileChange extract (some f) fd us).1 Field.transaction_frequency =
      fd Field.transaction_frequency) ∧
    ((handleFileChange extract (some f) fd us).1 Field.salary_payment_detected =
      fd Field.salary_payment_detected) ∧
    ((handleFileChange extract (some f) fd us).1 Field.end_of_month_balance =
      fd Field.end_of_month_balance) ∧
    ((handleFileChange extract (some f) fd us).1 Field.highest_credit_amount =
      fd Field.highest_credit_amount) ∧
    ((handleFileChange extract (some f) fd us).1 Field.highest_debit_amount =
      fd Field.highest_debit_amount) ∧
    ((handleFileChange extract (some f) fd us).1 Field.gambling_transactions_count =
      fd Field.gambling_transactions_count) ∧
    ((handleFileChange extract (some f) fd us).1 Field.loan_related_transactions_count =
      fd Field.loan_related_transactions_count) ∧
    ((handleFileChange extract (some f) fd us).2.extractionError =
      some (jsStringOr m "Failed to extract data. Please fill manually.")) ∧
    ((handleFileChange extract (some f) fd us).2.isExtracting = false) := by
  simp [handleFileChange, hx, updateField]

/-- Witness for C7: a failing extractor on the blank record leaves all
nine financial fields blank as they were and records the message. -/
theorem failed_extraction_preserves_financial_fields_witness :
    ((handleFileChange extractAlwaysFails (some sampleFile) initialFormData
        initialUploadState).1 Field.total_monthly_inflow =
      initialFormData Field.total_monthly_inflow) ∧
    ((handleFileChange extractAlwaysFails (some sampleFile) initialFormData
        initialUploadState).1 Field.total_monthly_outflow =
      initialFormData Field.total_monthly_outflow) ∧
    ((handleFileChange extractAlwaysFails (some sampleFile) initialFormData
        initialUploadState).1 Field.transaction_frequency =
      initialFormData Field.transaction_frequency) ∧
    ((handleFileChange extractAlwaysFails (some sampleFile) initialFormData
        initialUploadState).1 Field.salary_payment_detected =
      initialFormData Field.salary_payment_detected) ∧
    ((handleFileChange extractAlwaysFails (some sampleFile) initialFormData
        initialUploadState).1 Field.end_of_month_balance =
      initialFormData Field.end_of_month_balance) ∧
    ((handleFileChange extractAlwaysFails (some sampleFile) initialFormData
        initialUploadState).1 Field.highest_credit_amount =
      initialFormData Field.highest_credit_amount) ∧
    ((handleFileChange extractAlwaysFails (some sampleFile) initialFormData
        initialUploadState).1 Field.highest_debit_amount =
      initialFormData Field.highest_debit_amount) ∧
    ((handleFileChange extractAlwaysFails (some sampleFile) initialFormData
        initialUploadState).1 Field.gambling_transactions_count =
      initialFormData Field.gambling_transactions_count) ∧
    ((handleFileChange extractAlwaysFails (some sampleFile) initialFormData
        initialUploadState).1 Field.loan_related_transactions_count =
      initialFormData Field.loan_related_transactions_count) ∧
    ((handleFileChange extractAlwaysFails (some sampleFile) initialFormData
        initialUploadState).2.extractionError =
      some (jsStringOr "unreadable statement" "Failed to extract data. Please fill manually.")) ∧
    ((handleFileChange extractAlwaysFails (some sampleFile) initialFormData
        initialUploadState).2.isExtracting = false) :=
  failed_extraction_preserves_financial_fields extractAlwaysFails sampleFile
    initialFormData initialUploadState "unreadable statement" rfl

/-- C8.  handleNewAssessment, from any state, restores the record to a
value equal to the initial all-default record (field by field, with
the file handle back to null), clears results, feedback and the error
map, hides the results view and returns to step 0. -/
theorem newAssessment_resets_to_initial (st : FormState) :
    (handleNewAssessment st).formData = initialFormData ∧
    (∀ f, (handleNewAssessment st).formData f = initialFormData f) ∧
    (handleNewAssessment st).formData Field.bank_statement = Value.vNull ∧
    (handleNewAssessment st).currentStep = 0 ∧
    (handleNewAssessment st).showResults = false ∧
    (handleNewAssessment st).results = none ∧
    (handleNewAssessment st).feedback = none ∧
    (handleNewAssessment st).stepErrors = [] :=
  ⟨rfl, fun _ => rfl, rfl, rfl, rfl, rfl, rfl, rfl⟩

/-- C9.  The step index stays within the step registry: previous
clears the error map, touches no form data and decrements with a floor
at zero (with no validation involved); next keeps the index under the
number of steps; a successful next below the last step advances by
exactly one, and on the last step only clears the errors. -/
theorem step_index_invariant (st : FormState) :
    ((handlePrevious st).stepErrors = [] ∧
     (handlePrevious st).currentStep = st.currentStep - 1 ∧
     (handlePrevious st).formData = st.formData) ∧
    (∀ st', st.currentStep < formSteps.length → handleNext st = some st' →
      st'.currentStep < formSteps.length) ∧
    (∀ vres, validateStep st.currentStep st.formData = some vres →
      vres.isValid = true → st.currentStep < formSteps.length - 1 →
      handleNext st = some { st with stepErrors := [], currentStep := st.currentStep + 1 }) ∧
    (∀ vres, validateStep st.currentStep st.formData = some vres →
      vres.isValid = true → ¬ st.currentStep < formSteps.length - 1 →
      handleNext st = some { st with stepErrors := [] }) := by
  refine ⟨⟨rfl, ?_, rfl⟩, ?_, ?_, ?_⟩
  · simp only [handlePrevious]
    split <;> omega
  · intro st' hlt hnext
    cases hv : validateStep st.currentStep st.formData with
    | none => rw [handleNext, hv] at hnext; simp at hnext
    | some vres =>
      rw [handleNext, hv] at hnext
      simp only [Option.map_some'] at hnext
      obtain rfl : _ = st' := Option.some.inj hnext
      simp only [formSteps, List.length_cons, List.length_nil] at hlt ⊢
      split_ifs <;> simp <;> omega
  · intro vres hv hvalid hlt
    simp [handleNext, hv, hvalid, hlt]
  · intro vres hv hvalid hlt
    simp [handleNext, hv, hvalid, hlt]

/-- A copy of the sample state placed on the first step, for the C9
witness. -/
def sampleState0 : FormState :=
  { sampleState with currentStep := 0 }

/-- Witness for C9: from step 0 of the filled sample record, a
successful next lands on step 1; and the state next produces on the
last step keeps its index under the number of steps. -/
theorem step_index_invariant_witness :
    handleNext sampleState0 = some { sampleState0 with stepErrors := [], currentStep := 0 + 1 } ∧
    ({ sampleState with stepErrors := [] } : FormState).currentStep < formSteps.length :=
  ⟨(step_index_invariant sampleState0).2.2.1 (VResult.mk true []) (by decide) rfl (by decide),
   (step_index_invariant sampleState).2.1 { sampleState with stepErrors := [] }
     (by decide) rfl⟩

/-- C10.  Setting previous_loan_taken to No through the loan-history
change handler resets the three dependent fields to the empty string,
N/A and the string 0 respectively while leaving every other field
unchanged; any other change updates only the named field; and the
reset triple differs from the initial-record defaults, which are empty
strings for all three. -/
theorem loanHistory_reset_on_no (fd : FormRecord) :
    (lhHandleChange Field.previous_loan_taken (Value.vStr "No") fd
        Field.previous_loan_taken = Value.vStr "No" ∧
     lhHandleChange Field.previous_loan_taken (Value.vStr "No") fd
        Field.previous_loan_amount = Value.vStr "" ∧
     lhHandleChange Field.previous_loan_taken (Value.vStr "No") fd
        Field.repayment_status = Value.vStr "N/A" ∧
     lhHandleChange Field.previous_loan_taken (Value.vStr "No") fd
        Field.missed_payment_count = Value.vStr "0" ∧
     (∀ f, f ≠ Field.previous_loan_taken → f ≠ Field.previous_loan_amount →
       f ≠ Field.repayment_status → f ≠ Field.missed_payment_count →
       lhHandleChange Field.previous_loan_taken (Value.vStr "No") fd f = fd f)) ∧
    (∀ field value, (field ≠ Field.previous_loan_taken ∨ value ≠ Value.vStr "No") →
      lhHandleChange field value fd field = value ∧
      (∀ f, f ≠ field → lhHandleChange field value fd f = fd f)) ∧
    ((Value.vStr "", Value.vStr "N/A", Value.vStr "0") ≠
      (initialFormData Field.previous_loan_amount,
       initialFormData Field.repayment_status,
       initialFormData Field.missed_payment_count)) ∧
    (initialFormData Field.previous_loan_amount = Value.vStr "" ∧
     initialFormData Field.repayment_status = Value.vStr "" ∧
     initialFormData Field.missed_payment_count = Value.vStr "") := by
  refine ⟨⟨?_, ?_, ?_, ?_, ?_⟩, ?_, by decide, rfl, rfl, rfl⟩
  · simp [lhHandleChange, updateField]
  · simp [lhHandleChange, updateField]
  · simp [lhHandleChange, updateField]
  · simp [lhHandleChange, updateField]
  · intro f h1 h2 h3 h4
    simp [lhHandleChange, updateField, h1, h2, h3, h4]
  · intro field value h
    have hcond : ¬ (field = Field.previous_loan_taken ∧ value = Value.vStr "No") := by
      rcases h with h | h
      · exact fun hc => h hc.1
      · exact fun hc => h hc.2
    constructor
    · simp [lhHandleChange, hcond, updateField]
    · intro f hf
      simp [lhHandleChange, hcond, updateField, hf]

/-- Witness for C10: changing age to 41 on the blank record sets
exactly the age field, and the No-reset leaves an unrelated field such
as gender untouched. -/
theorem loanHistory_reset_on_no_witness :
    lhHandleChange Field.age (Value.vStr "41") initialFormData Field.age = Value.vStr "41" ∧
    lhHandleChange Field.previous_loan_taken (Value.vStr "No") initialFormData Field.gender =
      initialFormData Field.gender :=
  ⟨((loanHistory_reset_on_no initialFormData).2.1 Field.age (Value.vStr "41")
      (Or.inl (by decide))).1,
   (loanHistory_reset_on_no initialFormData).1.2.2.2.2 Field.gender
      (by decide) (by decide) (by decide) (by decide)⟩

end CreditApp
